import Mathlib

/-!
Shallow embedding of `src/rnn.py` (arxiv-recommender): data preprocessing, the
train/validation split, the RNN graph's feed dictionaries and dropout, the
training loop's event trace, prediction/accuracy, and the `__main__` driver.
Machine floats of the source are modelled as exact rationals (`ℚ`); NumPy
arrays as Lean lists.
-/

namespace ArxivRnn

/-- `Config` from `rnn.py` (lines 10-23): model hyperparameters. -/
structure Config where
  num_epochs : Nat
  batch_size : Nat
  num_classes : Nat
  embed_size : Nat
  max_length : Nat
  hidden_size : Nat
  learning_rate : ℚ
  dropout_rate : ℚ
deriving Repr, DecidableEq

/-- The values assigned in the body of `class Config` (`Config()` in the source). -/
def Config.default : Config :=
  ⟨20, 80, 20, 300, 300, 300, 1/1000, 1/2⟩

/-- The `__main__` validation (rnn.py lines 271-272): raise `ValueError` when
neither `--train` nor `--train-all` was supplied, otherwise fall through. -/
def validateModeFlags (train train_all : Bool) : Except String Unit :=
  if !(train || train_all) then
    Except.error "ValueError: Please include either --train or --train-all as a command line argument."
  else
    Except.ok ()

/-! ## The training loop as an event trace (rnn.py lines 167-189)

`train` runs `num_epochs` epochs; inside each epoch it iterates over the
minibatches, and the body of the *batch* loop performs one parameter-update
step (`train_on_batch`, line 184), then a checkpoint save (`saver.save`,
line 187, indented inside the batch loop).  After the batch loop, still inside
the epoch loop, `save_loss(losses)` appends the epoch's losses to a log
(line 188). -/

/-- Observable events of one run of `train`. -/
inductive TrainEvent where
  | batchStep      -- one `rnn.train_on_batch(session, *batch)` call (line 184)
  | checkpointSave -- one `saver.save(session, "./weights/train")` call (line 187)
  | lossLog        -- one `save_loss(losses)` call (line 188)
deriving Repr, DecidableEq

/-- The checkpoint path passed to every `saver.save` call (line 187): a single
fixed path, so each save overwrites the previous checkpoint. -/
def checkpointPath : String := "./weights/train"

/-- Events of the batch loop of one epoch (lines 183-187): each iteration of
the loop performs a training step and then, still inside the loop body, a
checkpoint save. -/
def batchLoopTrace : Nat → List TrainEvent
  | 0 => []
  | n + 1 =>
      TrainEvent.batchStep :: TrainEvent.checkpointSave :: batchLoopTrace n

/-- Events of one epoch of `train` (lines 179-188): the batch loop, then the
loss-log write. -/
def epochTrace (numBatches : Nat) : List TrainEvent :=
  batchLoopTrace numBatches ++ [TrainEvent.lossLog]

/-- Events of the whole `train` call: `numEpochs` epochs in sequence. -/
def trainTrace : Nat → Nat → List TrainEvent
  | 0, _ => []
  | e + 1, b => epochTrace b ++ trainTrace e b

/-- `true` iff every `checkpointSave` in the trace occurs immediately after a
`batchStep` (so the checkpoint is written per training batch and nowhere
else). -/
def savesAfterSteps : List TrainEvent → Bool
  | [] => true
  | TrainEvent.checkpointSave :: _ => false
  | TrainEvent.batchStep :: TrainEvent.checkpointSave :: rest =>
      savesAfterSteps rest
  | _ :: rest => savesAfterSteps rest

/-! ## `split_data` (rnn.py lines 152-165)

`np.random.shuffle(indices)` permutes `np.arange(n)`; we model the shuffled
index array as an explicit list `perm` together with the hypothesis that it is
a permutation of `List.range n`.  `split_index = int(len(indices)*train_ratio)`
truncates a nonnegative float toward zero, i.e. takes the floor; the float
arithmetic is modelled exactly over `ℚ`. -/

/-- `int(n * train_ratio)` of rnn.py line 158. -/
def split_index (n : Nat) (train_ratio : ℚ) : Nat :=
  (Int.floor ((n : ℚ) * train_ratio)).toNat

/-- `split_data` at the level of document indices: the shuffled index list is
split into `indices[:split_index]` (training) and `indices[split_index:]`
(validation); rnn.py lines 160-161. -/
def split_data (n : Nat) (perm : List Nat) (train_ratio : ℚ) :
    List Nat × List Nat :=
  (perm.take (split_index n train_ratio), perm.drop (split_index n train_ratio))

/-- NumPy fancy indexing `xs[indices]` used to slice out the training and
validation triples (rnn.py lines 163-164). -/
def sliceByIndices (xs : List α) (indices : List Nat) : List (Option α) :=
  indices.map (fun i => xs.get? i)

/-! ## Preprocessing: padding and truncation

`pad_abstracts` is defined in `data_utils.py`, which is not among the source
files (only `rnn.py` is); the definitions below are modelled from the spec. -/

/-- Modelled from the spec: `pad_abstracts` (in the missing `data_utils.py`)
"truncates documents longer than `max_length`; pads shorter ones with the
padding id", producing fixed-length token sequences. -/
def padAbstract (max_length : Nat) (padTok : Nat) (doc : List Nat) : List Nat :=
  doc.take max_length ++ List.replicate (max_length - doc.length) padTok

/-- Modelled from the spec: the per-document entry of `orig_lengths` returned
by `pad_abstracts` — the document's "true (unpadded) length", capped at
`max_length` when the document was truncated. -/
def origLength (max_length : Nat) (doc : List Nat) : Nat :=
  min doc.length max_length

/-- Modelled from the spec: `pad_abstracts` applied to a whole corpus, giving
the padded documents paired with their original lengths. -/
def pad_abstracts (max_length : Nat) (padTok : Nat) (docs : List (List Nat)) :
    List (List Nat) × List Nat :=
  (docs.map (padAbstract max_length padTok), docs.map (origLength max_length))

/-! ## The RNN graph: feed dictionaries, dropout, prediction ops -/

/-- A vectorized abstract: one row of token ids. -/
abbrev Doc := List Nat

/-- The feed dictionary built by `create_feed_dict` (rnn.py lines 51-61). -/
structure FeedDict where
  abstracts : List Doc
  lengths : List Nat
  labels : Option (List Nat)
  dropout : ℚ

/-- `create_feed_dict` with all four arguments given. -/
def create_feed_dict (abstracts_batch : List Doc) (lengths_batch : List Nat)
    (labels_batch : Option (List Nat)) (dropout_rate : ℚ) : FeedDict :=
  ⟨abstracts_batch, lengths_batch, labels_batch, dropout_rate⟩

/-- The Python defaults `labels_batch=None, dropout_rate=1` (rnn.py line 51),
as used by `predict_on_batch` (line 123) and `get_states_on_batch`
(line 131). -/
def create_feed_dict_defaults (abstracts_batch : List Doc)
    (lengths_batch : List Nat) : FeedDict :=
  create_feed_dict abstracts_batch lengths_batch none 1

/-- The feed dictionary of `train_on_batch` (rnn.py line 114): labels present
and `dropout_rate = self.config.dropout_rate`. -/
def train_on_batch_feed (c : Config) (abstracts_batch : List Doc)
    (lengths_batch labels_batch : List Nat) : FeedDict :=
  create_feed_dict abstracts_batch lengths_batch (some labels_batch)
    c.dropout_rate

/-- `tf.nn.dropout(x, keep_prob)` (rnn.py line 87): each element is kept
(scaled by `1 / keep_prob`) when its uniform-[0,1) draw is below `keep_prob`
and zeroed otherwise; `rand i` is the draw for element `i`. -/
def dropout (keep : ℚ) (rand : Nat → ℚ) (x : List ℚ) : List ℚ :=
  x.mapIdx (fun i v => if rand i < keep then v / keep else 0)

/-- Dot product of two vectors. -/
def dotList (v w : List ℚ) : ℚ := (List.zipWith (fun a b => a * b) v w).sum

/-- `tf.matmul(states_drop, U)` restricted to one row of the batch
(rnn.py line 88): entry `j` of the result is `Σ i, v i * U i j`. -/
def vecMat (v : List ℚ) (U : List (List ℚ)) : List ℚ :=
  U.transpose.map (fun col => dotList v col)

/-- The restored model, as the functions the TensorFlow graph computes with
the checkpointed weights: `hiddenOf doc len` is the final hidden state that
`tf.nn.dynamic_rnn` (rnn.py line 85) produces for a padded document and its
true length (the LSTM recurrence itself lives inside the framework), and `U`
is the output projection matrix (line 83). -/
structure ModelFns where
  hiddenOf : Doc → Nat → List ℚ
  U : List (List ℚ)

/-- The `logits` tensor of `add_prediction_op` (rnn.py lines 87-88) for one
row: dropout applied to the final hidden state, then projection through
`U`. -/
def graphLogits (m : ModelFns) (keep : ℚ) (rand : Nat → ℚ)
    (doc : Doc) (len : Nat) : List ℚ :=
  vecMat (dropout keep rand (m.hiddenOf doc len)) m.U

/-- The `states` output of `add_prediction_op` (rnn.py line 90) for one row:
the final hidden state itself, taken before dropout. -/
def graphStates (m : ModelFns) (doc : Doc) (len : Nat) : List ℚ :=
  m.hiddenOf doc len

/-- `tf.argmax(..., axis=1)` on one row, accumulator form: the first index
attaining the maximum. -/
def argmaxFrom (i best : Nat) (bestv : ℚ) : List ℚ → Nat
  | [] => best
  | x :: xs =>
      if bestv < x then argmaxFrom (i + 1) i x xs
      else argmaxFrom (i + 1) best bestv xs

/-- `tf.argmax` of one row of logits. -/
def argmax : List ℚ → Nat
  | [] => 0
  | x :: xs => argmaxFrom 1 0 x xs

/-- `predict_on_batch` (rnn.py lines 118-125): builds the feed dictionary
with the default `dropout_rate=1` and returns `tf.argmax(logits, axis=1)` for
every row of the batch; `rand j` is the dropout randomness of row `j`. -/
def predict_on_batch (m : ModelFns) (rand : Nat → Nat → ℚ)
    (abstracts_batch : List Doc) (lengths_batch : List Nat) : List Nat :=
  let fd := create_feed_dict_defaults abstracts_batch lengths_batch
  (fd.abstracts.zip fd.lengths).mapIdx
    (fun j p => argmax (graphLogits m fd.dropout (rand j) p.1 p.2))

/-- `get_states_on_batch` (rnn.py lines 127-133): the final hidden state of
every row of the batch, again with the default `dropout_rate=1` feed. -/
def get_states_on_batch (m : ModelFns)
    (abstracts_batch : List Doc) (lengths_batch : List Nat) : List (List ℚ) :=
  let fd := create_feed_dict_defaults abstracts_batch lengths_batch
  (fd.abstracts.zip fd.lengths).map (fun p => graphStates m p.1 p.2)

/-- `np.mean(out == labels)` (rnn.py line 224): the mean of the elementwise
equality indicators. -/
def npMeanEq (out labels : List Nat) : ℚ :=
  (List.zipWith (fun a b => if a = b then (1 : ℚ) else 0) out labels).sum
    / out.length

/-- `predict` in `--train` mode, i.e. with `get_states=False` (rnn.py lines
200-225): run `predict_on_batch` over the whole validation set with the
restored model and return `np.mean(out == labels)`. -/
def predict (m : ModelFns) (rand : Nat → Nat → ℚ) (abstracts : List Doc)
    (lengths labels : List Nat) : ℚ :=
  npMeanEq (predict_on_batch m rand abstracts lengths) labels

/-! ## `get_all_states` (rnn.py lines 227-248) -/

/-- Modelled from the spec: `get_minibatches` is defined in `data_utils.py`,
which is not among the source files; per the spec ("over the full dataset in
fixed order"), with `shuffle=False` it yields consecutive minibatches of size
`batch_size` in the data's original order. -/
def minibatches (batch_size : Nat) (xs : List α) : List (List α) :=
  if h : batch_size = 0 ∨ xs.isEmpty = true then []
  else xs.take batch_size :: minibatches batch_size (xs.drop batch_size)
termination_by xs.length
decreasing_by
  push_neg at h
  simp only [List.length_drop]
  have h3 : 0 < xs.length := by
    cases xs with
    | nil => simp at h
    | cons y ys => simp
  omega

/-- `get_all_states` (rnn.py lines 227-248): iterate the unshuffled
minibatches of (abstract, length, label) triples, run `get_states_on_batch`
on each minibatch's abstracts and lengths, and concatenate the resulting
state rows (`np.append(states, batch_states, axis=0)`, line 245). -/
def get_all_states (m : ModelFns) (abstracts : List Doc)
    (lengths labels : List Nat) : List (List ℚ) :=
  ((minibatches Config.default.batch_size
      ((abstracts.zip lengths).zip labels)).map
    (fun batch => get_states_on_batch m (batch.map (fun t => t.1.1))
        (batch.map (fun t => t.1.2)))).flatten

/-! ## TensorFlow variables and `optimizer.minimize` -/

/-- The role of a graph variable: a trainable parameter, a frozen
(`trainable=False`) parameter, or an optimizer slot (Adam moment buffer). -/
inductive VarKind where
  | trainableParam
  | frozenParam
  | optimizerSlot
deriving Repr, DecidableEq

/-- A TensorFlow graph variable. -/
structure TFVar where
  name : String
  kind : VarKind
  value : List ℚ
deriving Repr, DecidableEq

/-- The variables of this graph: the embedding table is created with
`trainable=False` (rnn.py line 67); `BasicLSTMCell`'s kernel and bias
(line 79) and the projection matrix `U` (line 83) are trainable; the
`AdamOptimizer` (line 105) adds first- and second-moment slot buffers for the
trainable variables. -/
def graphVariables (emb lstmKernel lstmBias uVal adamM adamV : List ℚ) :
    List TFVar :=
  [⟨"embedding", VarKind.frozenParam, emb⟩,
   ⟨"lstm_kernel", VarKind.trainableParam, lstmKernel⟩,
   ⟨"lstm_bias", VarKind.trainableParam, lstmBias⟩,
   ⟨"U", VarKind.trainableParam, uVal⟩,
   ⟨"adam_m", VarKind.optimizerSlot, adamM⟩,
   ⟨"adam_v", VarKind.optimizerSlot, adamV⟩]

/-- One application of the `optimizer.minimize(loss)` op, as run by
`train_on_batch` (rnn.py lines 106 and 115): the gradient update touches the
trainable variables and the optimizer's slot buffers, while variables created
with `trainable=False` are excluded from `minimize` and left untouched.
`upd` is the (arbitrary) new-value function Adam computes from the
gradients. -/
def minimizeStep (upd : String → List ℚ → List ℚ) (vars : List TFVar) :
    List TFVar :=
  vars.map (fun v =>
    if v.kind = VarKind.frozenParam then v
    else ⟨v.name, v.kind, upd v.name v.value⟩)

/-- The value of the variable named `n`. -/
def lookupVar (n : String) (vars : List TFVar) : Option (List ℚ) :=
  (vars.find? (fun v => v.name == n)).map (fun v => v.value)

/-! ## Python `%` string formatting (rnn.py line 279) -/

/-- Python's `fmt % arg` for a single non-tuple argument, over the character
list of the format string: each `%` followed by a conversion character
consumes one argument (`%%` is a literal percent); leftover arguments after
the scan raise `TypeError: not all arguments converted during string
formatting`, and a missing argument raises `TypeError: not enough arguments
for format string`. `conv` renders one argument for one conversion
character. -/
def pyFormat (conv : Char → ℚ → String) :
    List Char → List ℚ → Except String String
  | [], [] => Except.ok ""
  | [], _ :: _ =>
      Except.error
        "TypeError: not all arguments converted during string formatting"
  | c :: rest, args =>
      if c = '%' then
        match rest with
        | [] => Except.error "ValueError: incomplete format"
        | c2 :: rest2 =>
            if c2 = '%' then
              (pyFormat conv rest2 args).map (fun s => "%" ++ s)
            else
              match args with
              | [] =>
                  Except.error
                    "TypeError: not enough arguments for format string"
              | a :: args2 =>
                  (pyFormat conv rest2 args2).map (fun s => conv c2 a ++ s)
      else (pyFormat conv rest args).map (fun s => c.toString ++ s)

/-- The format string at rnn.py line 279: it contains no `%` conversion
specifier (the intended `%.2f` is written `.2f`). -/
def accuracyFormat : String := "Accuracy on validation set is: .2f"

/-! ## Placeholder shape versus the CLI `--max-length` (rnn.py lines 46, 266) -/

/-- The fixed sequence-dimension width `(None, self.config.max_length)` of
`abstracts_placeholder` (rnn.py line 46): set by `Config.max_length`,
independent of the CLI `--max-length` value used in preprocessing. -/
def abstractsPlaceholderWidth (c : Config) : Nat := c.max_length

/-- Feeding a batch into `abstracts_placeholder` is well-defined exactly when
every row has the placeholder's fixed width. -/
def feedShapeOk (c : Config) (batch : List Doc) : Bool :=
  batch.all (fun row => row.length == abstractsPlaceholderWidth c)

end ArxivRnn

namespace ArxivRnn

theorem batchLoopTrace_count_save (b : Nat) :
    (batchLoopTrace b).count TrainEvent.checkpointSave = b := by
  induction b with
  | zero => rfl
  | succ n ih => simp [batchLoopTrace, List.count_cons, ih]

theorem epochTrace_count_save (b : Nat) :
    (epochTrace b).count TrainEvent.checkpointSave = b := by
  simp [epochTrace, List.count_append, batchLoopTrace_count_save]

theorem trainTrace_count_save (e b : Nat) :
    (trainTrace e b).count TrainEvent.checkpointSave = e * b := by
  induction e with
  | zero => simp [trainTrace]
  | succ n ih =>
      simp [trainTrace, List.count_append, epochTrace_count_save, ih,
        Nat.succ_mul, Nat.add_comm]

theorem savesAfterSteps_batchLoop (b : Nat) (rest : List TrainEvent) :
    savesAfterSteps (batchLoopTrace b ++ rest) = savesAfterSteps rest := by
  induction b with
  | zero => rfl
  | succ n ih => simpa [batchLoopTrace, savesAfterSteps] using ih

theorem savesAfterSteps_trainTrace (e b : Nat) :
    savesAfterSteps (trainTrace e b) = true := by
  induction e with
  | zero => rfl
  | succ n ih =>
      simp [trainTrace, epochTrace, List.append_assoc,
        savesAfterSteps_batchLoop, savesAfterSteps, ih]

/-- C4: the `__main__` validation raises an error iff neither `--train` nor
`--train-all` is supplied; when at least one is given it passes. -/
theorem main_mode_flag_validation (t a : Bool) :
    ((∃ msg, validateModeFlags t a = Except.error msg) ↔ ¬(t = true ∨ a = true))
    ∧ ((t = true ∨ a = true) → validateModeFlags t a = Except.ok ()) := by
  cases t <;> cases a <;> simp [validateModeFlags]

/-- C1 counterexample: with the default 20 epochs and a training split of two
minibatches (e.g. 160 documents at batch size 80), the training loop performs
40 checkpoint saves, not one per epoch (20): `saver.save` sits inside the
batch loop, so the claim "written exactly once after each epoch completes"
is false. -/
theorem checkpoint_not_once_per_epoch :
    (trainTrace Config.default.num_epochs 2).count TrainEvent.checkpointSave = 40
    ∧ Config.default.num_epochs = 20 ∧ (40 : Nat) ≠ 20 := by
  refine ⟨?_, rfl, by decide⟩
  simpa [Config.default] using trainTrace_count_save 20 2

/-- C1 (amended): during training, the checkpoint is written (always to the
same fixed path, overwriting the previous checkpoint) exactly once after each
training batch — hence `numBatches` times per epoch — and at no other point
of the training loop. -/
theorem checkpoint_once_per_batch (e b : Nat) :
    (trainTrace e b).count TrainEvent.checkpointSave = e * b
    ∧ savesAfterSteps (trainTrace e b) = true
    ∧ checkpointPath = "./weights/train" := by
  exact ⟨trainTrace_count_save e b, savesAfterSteps_trainTrace e b, rfl⟩

theorem split_index_ninety (n : Nat) : split_index n (9/10) = 9 * n / 10 := by
  unfold split_index
  have h : ((n : ℚ)) * (9/10) = ((9 * n : ℕ) : ℚ) / ((10 : ℕ) : ℚ) := by
    push_cast; ring
  rw [h, Rat.floor_natCast_div_natCast]
  omega

theorem split_index_ninety_le (n : Nat) : split_index n (9/10) ≤ n := by
  rw [split_index_ninety]
  calc 9 * n / 10 ≤ 10 * n / 10 := Nat.div_le_div_right (by omega)
    _ = n := Nat.mul_div_cancel_left n (by norm_num)

/-- C2: with the default `train_ratio = 0.9`, `split_data` splits the shuffled
index list of `n` documents into a training part of exactly
`⌊0.9 * n⌋ = 9 * n / 10` indices and a validation part of the remaining
`n - 9 * n / 10`; the two parts are disjoint and together are exactly the `n`
document indices. -/
theorem split_data_partition (n : Nat) (perm : List Nat)
    (hperm : perm.Perm (List.range n)) :
    ((split_data n perm (9/10)).1.length
        = (Int.floor ((9/10 : ℚ) * n)).toNat
      ∧ (split_data n perm (9/10)).1.length = 9 * n / 10)
    ∧ (split_data n perm (9/10)).1.length
        + (split_data n perm (9/10)).2.length = n
    ∧ (split_data n perm (9/10)).1.Disjoint (split_data n perm (9/10)).2
    ∧ ((split_data n perm (9/10)).1 ++ (split_data n perm (9/10)).2).Perm
        (List.range n) := by
  have hlen : perm.length = n := by
    simpa using hperm.length_eq
  have htd : (split_data n perm (9/10)).1 ++ (split_data n perm (9/10)).2
      = perm := by
    simp [split_data]
  have hnodup : perm.Nodup := hperm.nodup_iff.mpr (List.nodup_range n)
  have hlen1 : (split_data n perm (9/10)).1.length = 9 * n / 10 := by
    simp [split_data, hlen]
    rw [split_index_ninety]
    exact min_eq_left (by
      calc 9 * n / 10 ≤ 10 * n / 10 := Nat.div_le_div_right (by omega)
        _ = n := Nat.mul_div_cancel_left n (by norm_num))
  refine ⟨⟨?_, hlen1⟩, ?_, ?_, ?_⟩
  · rw [hlen1, ← split_index_ninety]
    simp [split_index, mul_comm]
  · rw [← List.length_append, htd, hlen]
  · have hnd : ((split_data n perm (9/10)).1
        ++ (split_data n perm (9/10)).2).Nodup := by rw [htd]; exact hnodup
    exact (List.nodup_append.mp hnd).2.2
  · rw [htd]; exact hperm

/-- C2 witness: the split for the concrete shuffle `[2, 0, 1]` of three
documents. -/
theorem split_data_partition_witness :
    ((split_data 3 [2, 0, 1] (9/10)).1.length
        = (Int.floor ((9/10 : ℚ) * 3)).toNat
      ∧ (split_data 3 [2, 0, 1] (9/10)).1.length = 9 * 3 / 10)
    ∧ (split_data 3 [2, 0, 1] (9/10)).1.length
        + (split_data 3 [2, 0, 1] (9/10)).2.length = 3
    ∧ (split_data 3 [2, 0, 1] (9/10)).1.Disjoint (split_data 3 [2, 0, 1] (9/10)).2
    ∧ ((split_data 3 [2, 0, 1] (9/10)).1 ++ (split_data 3 [2, 0, 1] (9/10)).2).Perm
        (List.range 3) :=
  split_data_partition 3 [2, 0, 1] (by decide)

/-- C8: every document comes out of the padding step with length exactly
`max_length` — longer documents are truncated to their first `max_length`
tokens, shorter ones are padded at the end with the padding id — and the
corresponding `orig_lengths` entry is the true (unpadded, capped at
`max_length`) length. -/
theorem pad_abstracts_spec (max_length padTok : Nat) (docs : List (List Nat))
    (doc : List Nat) (hmem : doc ∈ docs) :
    (padAbstract max_length padTok doc ∈ (pad_abstracts max_length padTok docs).1)
    ∧ (∀ p ∈ (pad_abstracts max_length padTok docs).1, p.length = max_length)
    ∧ (doc.length ≥ max_length →
        padAbstract max_length padTok doc = doc.take max_length)
    ∧ (doc.length ≤ max_length →
        padAbstract max_length padTok doc
          = doc ++ List.replicate (max_length - doc.length) padTok)
    ∧ ((pad_abstracts max_length padTok docs).2 =
        docs.map (fun d => min d.length max_length))
    ∧ origLength max_length doc = min doc.length max_length := by
  refine ⟨List.mem_map_of_mem _ hmem, ?_, ?_, ?_, rfl, rfl⟩
  · intro p hp
    obtain ⟨d, _, rfl⟩ := List.mem_map.mp hp
    simp [padAbstract]
    omega
  · intro hge
    simp [padAbstract, Nat.sub_eq_zero_of_le hge]
  · intro hle
    simp [padAbstract, List.take_of_length_le hle]

/-- C8 witness: padding at `max_length = 4` with padding id 9 for a corpus
holding one longer and one shorter document. -/
theorem pad_abstracts_spec_witness :
    (padAbstract 4 9 [1, 2] ∈ (pad_abstracts 4 9 [[1, 2], [3, 4, 5, 6, 7]]).1)
    ∧ (∀ p ∈ (pad_abstracts 4 9 [[1, 2], [3, 4, 5, 6, 7]]).1, p.length = 4)
    ∧ ([1, 2].length ≥ 4 → padAbstract 4 9 [1, 2] = [1, 2].take 4)
    ∧ ([1, 2].length ≤ 4 →
        padAbstract 4 9 [1, 2]
          = [1, 2] ++ List.replicate (4 - [1, 2].length) 9)
    ∧ ((pad_abstracts 4 9 [[1, 2], [3, 4, 5, 6, 7]]).2 =
        [[1, 2], [3, 4, 5, 6, 7]].map (fun d => min d.length 4))
    ∧ origLength 4 [1, 2] = min [1, 2].length 4 :=
  pad_abstracts_spec 4 9 [[1, 2], [3, 4, 5, 6, 7]] [1, 2] (by decide)

/-- C4 witness: with `--train` given and `--train-all` absent, the validation
passes. -/
theorem main_mode_flag_validation_witness :
    validateModeFlags true false = Except.ok () :=
  (main_mode_flag_validation true false).2 (Or.inl rfl)

/-- C7: one `optimizer.minimize` application updates exactly the LSTM kernel
and bias, the projection matrix `U`, and the Adam moment buffers; the
embedding variable, created with `trainable=False`, holds the same values
after the step as before it. -/
theorem embedding_frozen_under_training (upd : String → List ℚ → List ℚ)
    (emb lstmKernel lstmBias uVal adamM adamV : List ℚ) :
    minimizeStep upd (graphVariables emb lstmKernel lstmBias uVal adamM adamV)
      = graphVariables emb (upd "lstm_kernel" lstmKernel)
          (upd "lstm_bias" lstmBias) (upd "U" uVal)
          (upd "adam_m" adamM) (upd "adam_v" adamV)
    ∧ lookupVar "embedding"
        (minimizeStep upd
          (graphVariables emb lstmKernel lstmBias uVal adamM adamV))
      = some emb
    ∧ lookupVar "embedding"
        (graphVariables emb lstmKernel lstmBias uVal adamM adamV)
      = some emb := by
  refine ⟨?_, ?_, ?_⟩ <;>
    simp [minimizeStep, graphVariables, lookupVar, List.find?]

theorem padAbstract_length (max_length padTok : Nat) (doc : List Nat) :
    (padAbstract max_length padTok doc).length = max_length := by
  simp [padAbstract]
  omega

/-- C10: the placeholder fixes the sequence dimension to
`Config.max_length = 300` no matter what `--max-length` value was used in
preprocessing, so feeding a preprocessed nonempty batch (whose rows all have
width `cliMax`) is well-defined iff `--max-length 300` was supplied. -/
theorem placeholder_width_fixed (cliMax padTok : Nat) (docs : List (List Nat))
    (hne : docs ≠ []) :
    abstractsPlaceholderWidth Config.default = 300
    ∧ Config.default.max_length = 300
    ∧ (feedShapeOk Config.default ((pad_abstracts cliMax padTok docs).1) = true
        ↔ cliMax = 300) := by
  refine ⟨rfl, rfl, ?_⟩
  cases docs with
  | nil => exact absurd rfl hne
  | cons d ds =>
      simp [feedShapeOk, pad_abstracts, abstractsPlaceholderWidth,
        Config.default, padAbstract_length, List.all_eq_true]
      intro h
      exact fun _ _ => h

/-- C10 witness: a batch preprocessed at `--max-length 300` feeds fine; the
other conjuncts at the same concrete input. -/
theorem placeholder_width_fixed_witness :
    abstractsPlaceholderWidth Config.default = 300
    ∧ Config.default.max_length = 300
    ∧ (feedShapeOk Config.default ((pad_abstracts 300 0 [[1, 2, 3]]).1) = true
        ↔ (300 : Nat) = 300) :=
  placeholder_width_fixed 300 0 [[1, 2, 3]] (by decide)

theorem pyFormat_no_specifier (conv : Char → ℚ → String) (chars : List Char)
    (h : '%' ∉ chars) (a : ℚ) (args : List ℚ) :
    pyFormat conv chars (a :: args)
      = Except.error
          "TypeError: not all arguments converted during string formatting" := by
  induction chars with
  | nil => rfl
  | cons c rest ih =>
      have hc : ¬(c = '%') := fun hceq => h (hceq ▸ List.mem_cons_self c rest)
      have hrest : '%' ∉ rest := fun hm => h (List.mem_cons_of_mem c hm)
      rw [pyFormat.eq_def]
      simp [hc, ih hrest]
      rfl

/-- C9: the final accuracy print applies `%` to a format string holding no
conversion specifier (the intended `%.2f` is written `.2f`), so every run
reaching rnn.py line 279 raises a `TypeError` instead of printing the
accuracy — whatever the accuracy value and whatever the rendering of a
conversion would have been. -/
theorem accuracy_print_raises_type_error (conv : Char → ℚ → String)
    (accuracy : ℚ) :
    pyFormat conv accuracyFormat.toList [accuracy]
      = Except.error
          "TypeError: not all arguments converted during string formatting" := by
  apply pyFormat_no_specifier
  decide

theorem dropout_keep_one (rand : Nat → ℚ) (h : ∀ i, rand i < 1)
    (x : List ℚ) : dropout 1 rand x = x := by
  unfold dropout
  rw [List.mapIdx_eq_enum_map]
  have hcong : ∀ p ∈ x.enum,
      Function.uncurry (fun i v => if rand i < (1 : ℚ) then v / 1 else 0) p
        = Prod.snd p := by
    intro p _
    simp [Function.uncurry, h p.1]
  rw [List.map_congr_left hcong, List.enum_map_snd]

/-- C5: dropout touches the final hidden state only during training — every
training step feeds the configured rate (`Config.dropout_rate = 0.5`) while
the inference feed dictionaries (`predict_on_batch`, `get_states_on_batch`)
carry the default keep probability 1, under which the dropout op is the
identity on the hidden state; so the inference logits equal the undropped
projection, do not depend on the dropout randomness, and the `states` output
is the raw hidden state. -/
theorem dropout_only_during_training (c : Config) (m : ModelFns)
    (a : List Doc) (l lab : List Nat) (doc : Doc) (len : Nat)
    (rand rand2 : Nat → ℚ)
    (hrand : ∀ i, 0 ≤ rand i ∧ rand i < 1)
    (hrand2 : ∀ i, 0 ≤ rand2 i ∧ rand2 i < 1) :
    (train_on_batch_feed c a l lab).dropout = c.dropout_rate
    ∧ Config.default.dropout_rate = 1/2
    ∧ (create_feed_dict_defaults a l).dropout = 1
    ∧ dropout 1 rand (m.hiddenOf doc len) = m.hiddenOf doc len
    ∧ graphLogits m 1 rand doc len = vecMat (m.hiddenOf doc len) m.U
    ∧ graphLogits m 1 rand doc len = graphLogits m 1 rand2 doc len
    ∧ graphStates m doc len = m.hiddenOf doc len := by
  have h1 := dropout_keep_one rand (fun i => (hrand i).2)
  have h2 := dropout_keep_one rand2 (fun i => (hrand2 i).2)
  refine ⟨rfl, rfl, rfl, h1 _, ?_, ?_, rfl⟩
  · unfold graphLogits
    rw [h1]
  · unfold graphLogits
    rw [h1, h2]

/-- C5 witness: the dropout behaviour at a concrete model, batch and
randomness source (all draws 0). -/
theorem dropout_only_during_training_witness :
    (train_on_batch_feed Config.default [] [] []).dropout
        = Config.default.dropout_rate
    ∧ Config.default.dropout_rate = 1/2
    ∧ (create_feed_dict_defaults [] []).dropout = 1
    ∧ dropout 1 (fun _ => 0)
        ((ModelFns.mk (fun _ _ => [1, 2]) [[1], [2]]).hiddenOf [0] 1)
      = (ModelFns.mk (fun _ _ => [1, 2]) [[1], [2]]).hiddenOf [0] 1
    ∧ graphLogits (ModelFns.mk (fun _ _ => [1, 2]) [[1], [2]]) 1
        (fun _ => 0) [0] 1
      = vecMat ((ModelFns.mk (fun _ _ => [1, 2]) [[1], [2]]).hiddenOf [0] 1)
          (ModelFns.mk (fun _ _ => [1, 2]) [[1], [2]]).U
    ∧ graphLogits (ModelFns.mk (fun _ _ => [1, 2]) [[1], [2]]) 1
        (fun _ => 0) [0] 1
      = graphLogits (ModelFns.mk (fun _ _ => [1, 2]) [[1], [2]]) 1
          (fun _ => 0) [0] 1
    ∧ graphStates (ModelFns.mk (fun _ _ => [1, 2]) [[1], [2]]) [0] 1
      = (ModelFns.mk (fun _ _ => [1, 2]) [[1], [2]]).hiddenOf [0] 1 :=
  dropout_only_during_training Config.default
    (ModelFns.mk (fun _ _ => [1, 2]) [[1], [2]]) [] [] [] [0] 1
    (fun _ => 0) (fun _ => 0)
    (fun i => ⟨le_refl 0, by norm_num⟩)
    (fun i => ⟨le_refl 0, by norm_num⟩)

theorem indicator_sum_eq_countP (out labels : List Nat) :
    (List.zipWith (fun a b => if a = b then (1 : ℚ) else 0) out labels).sum
      = ((out.zip labels).countP (fun p => p.1 == p.2) : ℕ) := by
  induction out generalizing labels with
  | nil => simp
  | cons o os ih =>
      cases labels with
      | nil => simp
      | cons l ls =>
          simp only [List.zipWith_cons_cons, List.sum_cons,
            List.zip_cons_cons, List.countP_cons, ih ls]
          by_cases h : o = l <;> simp [h] <;> push_cast <;> ring

theorem mapIdx_congr_map (F : Nat → α → β) (g : α → β) (l : List α)
    (h : ∀ i x, F i x = g x) : l.mapIdx F = l.map g := by
  rw [List.mapIdx_eq_enum_map]
  have hcong : ∀ p ∈ l.enum, Function.uncurry F p = g p.2 :=
    fun p _ => h p.1 p.2
  rw [List.map_congr_left hcong]
  calc l.enum.map (fun p => g p.2) = (l.enum.map Prod.snd).map g := by
        rw [List.map_map]
        rfl
    _ = l.map g := by rw [List.enum_map_snd]

/-- C3: in `--train` mode, `predict` returns the validation accuracy — the
fraction of validation documents whose predicted class id (the argmax over
classes of the logits the restored model produces) equals the ground-truth
label. -/
theorem predict_returns_accuracy (m : ModelFns) (rand : Nat → Nat → ℚ)
    (abstracts : List Doc) (lengths labels : List Nat)
    (hrand : ∀ j i, 0 ≤ rand j i ∧ rand j i < 1)
    (hlen : lengths.length = abstracts.length) :
    predict m rand abstracts lengths labels
      = ((((abstracts.zip lengths).zip labels).countP
            (fun p => argmax (vecMat (m.hiddenOf p.1.1 p.1.2) m.U) == p.2)
          : ℕ) : ℚ) / (abstracts.length : ℚ) := by
  have hout : predict_on_batch m rand abstracts lengths
      = (abstracts.zip lengths).map
          (fun p => argmax (vecMat (m.hiddenOf p.1 p.2) m.U)) := by
    simp only [predict_on_batch, create_feed_dict_defaults, create_feed_dict]
    exact mapIdx_congr_map _ _ _ (fun j p => by
      simp only [graphLogits,
        dropout_keep_one (rand j) (fun i => (hrand j i).2)])
  unfold predict npMeanEq
  rw [hout, indicator_sum_eq_countP, List.zip_map_left, List.countP_map]
  have hlength : ((abstracts.zip lengths).map
      (fun p => argmax (vecMat (m.hiddenOf p.1 p.2) m.U))).length
      = abstracts.length := by
    simp [List.length_zip, hlen]
  rw [hlength]
  rfl

/-- C3 witness: a one-document validation set on which the restored model
predicts class 1, matching the label, for accuracy 1. -/
theorem predict_returns_accuracy_witness :
    predict (ModelFns.mk (fun _ _ => [1, 2]) [[1, 0], [0, 1]])
        (fun _ _ => 0) [[0]] [1] [1]
      = ((((([[0]] : List Doc).zip [1]).zip [1]).countP
            (fun p =>
              argmax (vecMat
                ((ModelFns.mk (fun _ _ => [1, 2]) [[1, 0], [0, 1]]).hiddenOf
                  p.1.1 p.1.2)
                (ModelFns.mk (fun _ _ => [1, 2]) [[1, 0], [0, 1]]).U) == p.2)
          : ℕ) : ℚ) / ((([[0]] : List Doc).length : ℚ)) :=
  predict_returns_accuracy (ModelFns.mk (fun _ _ => [1, 2]) [[1, 0], [0, 1]])
    (fun _ _ => 0) [[0]] [1] [1]
    (fun j i => ⟨le_refl 0, by norm_num⟩) rfl

theorem minibatches_flatten (bs : Nat) (hbs : 0 < bs) (xs : List α) :
    (minibatches bs xs).flatten = xs := by
  generalize hn : xs.length = n
  induction n using Nat.strong_induction_on generalizing xs with
  | _ n ih =>
      cases xs with
      | nil =>
          rw [minibatches]
          simp
      | cons y ys =>
          rw [minibatches]
          have hcond : ¬(bs = 0 ∨ (y :: ys).isEmpty = true) := by
            simp [hbs.ne']
          rw [dif_neg hcond, List.flatten_cons]
          have hlt : ((y :: ys).drop bs).length < n := by
            rw [← hn]
            simp only [List.length_drop, List.length_cons]
            omega
          rw [ih ((y :: ys).drop bs).length hlt _ rfl]
          exact List.take_append_drop bs (y :: ys)

theorem zip_map_same (f : α → β) (g : α → γ) (l : List α) :
    (l.map f).zip (l.map g) = l.map (fun x => (f x, g x)) := by
  induction l with
  | nil => rfl
  | cons a t ih => simp [ih]

theorem get_states_on_batch_map (m : ModelFns)
    (batch : List ((Doc × Nat) × Nat)) :
    get_states_on_batch m (batch.map (fun t => t.1.1))
        (batch.map (fun t => t.1.2))
      = batch.map (fun t => graphStates m t.1.1 t.1.2) := by
  simp only [get_states_on_batch, create_feed_dict_defaults, create_feed_dict]
  rw [zip_map_same, List.map_map]
  rfl

/-- C6: `get_all_states` walks the full dataset in its original fixed order
(minibatches taken without shuffling) and returns exactly one final
hidden-state row per input document, row `i` being the hidden state of
document `i` — the result is the in-order map of the per-document state
function over the dataset, and has one row per document. -/
theorem get_all_states_in_order (m : ModelFns) (abstracts : List Doc)
    (lengths labels : List Nat)
    (hlen : lengths.length = abstracts.length)
    (hlab : labels.length = abstracts.length) :
    get_all_states m abstracts lengths labels
      = (abstracts.zip lengths).map (fun p => graphStates m p.1 p.2)
    ∧ (get_all_states m abstracts lengths labels).length
        = abstracts.length := by
  have hmain : get_all_states m abstracts lengths labels
      = (abstracts.zip lengths).map (fun p => graphStates m p.1 p.2) := by
    unfold get_all_states
    rw [List.map_congr_left (fun batch _ => get_states_on_batch_map m batch)]
    rw [← List.map_flatten]
    rw [minibatches_flatten Config.default.batch_size
      (by norm_num [Config.default]) _]
    have hfst : ((abstracts.zip lengths).zip labels).map Prod.fst
        = abstracts.zip lengths := by
      apply List.map_fst_zip
      simp [List.length_zip, hlen, hlab]
    calc ((abstracts.zip lengths).zip labels).map
            (fun t => graphStates m t.1.1 t.1.2)
        = (((abstracts.zip lengths).zip labels).map Prod.fst).map
            (fun p => graphStates m p.1 p.2) := by
          rw [List.map_map]
          rfl
      _ = (abstracts.zip lengths).map (fun p => graphStates m p.1 p.2) := by
          rw [hfst]
  refine ⟨hmain, ?_⟩
  rw [hmain]
  simp [List.length_zip, hlen]

/-- C6 witness: two documents, whose hidden states come back as two rows in
the original order. -/
theorem get_all_states_in_order_witness :
    get_all_states (ModelFns.mk (fun d _ => [(d.headD 0 : ℚ)]) [[1]])
        [[5], [6]] [1, 1] [0, 1]
      = (([[5], [6]] : List Doc).zip [1, 1]).map
          (fun p => graphStates
            (ModelFns.mk (fun d _ => [(d.headD 0 : ℚ)]) [[1]]) p.1 p.2)
    ∧ (get_all_states (ModelFns.mk (fun d _ => [(d.headD 0 : ℚ)]) [[1]])
        [[5], [6]] [1, 1] [0, 1]).length = ([[5], [6]] : List Doc).length :=
  get_all_states_in_order (ModelFns.mk (fun d _ => [(d.headD 0 : ℚ)]) [[1]])
    [[5], [6]] [1, 1] [0, 1] rfl rfl

end ArxivRnn
